import Mathlib

/-!
Shallow embedding of the Payment & Subscription Reconciliation Engine
(src/backend/src): the rows of the four durable tables, a `Store` value
holding the table contents, and the engine's operations translated from
the Rust source. SQL statements are embedded as list operations on the
store; each database round trip commits immediately (there is no
enclosing transaction in the source), so the handlers return the store
they have built so far even when they end in an error, mirroring `?`
propagation after already-committed writes. Timestamps are Nat values
taken from the store clock; monetary amounts are carried opaquely as Int.
-/

/-- Row of the payment_intents table (struct PaymentIntent,
src/backend/src/models/payment.rs). -/
structure PaymentIntentRow where
  id : Nat
  stripe_payment_intent_id : String
  user_id : Nat
  subscription_id : Nat
  amount : Int
  currency : String
  status : String
  client_secret : String
  created_at : Nat
  updated_at : Nat
deriving DecidableEq, Repr

/-- Row of the payment_history table (struct PaymentHistory). -/
structure PaymentHistoryRow where
  id : Nat
  user_id : Nat
  subscription_id : Nat
  payment_intent_id : Nat
  amount : Int
  currency : String
  status : String
  created_at : Nat
deriving DecidableEq, Repr

/-- Row of the user_subscriptions table (struct UserSubscription,
src/backend/src/models/subscription.rs). -/
structure UserSubscriptionRow where
  id : Nat
  user_id : Nat
  subscription_id : Nat
  starts_at : Nat
  ends_at : Option Nat
  is_active : Bool
  payment_status : Option String
  created_at : Nat
  updated_at : Nat
deriving DecidableEq, Repr

/-- Row of the payment_methods table (struct PaymentMethod). -/
structure PaymentMethodRow where
  id : Nat
  user_id : Nat
  stripe_payment_method_id : String
  card_brand : Option String
  card_last4 : Option String
  card_exp_month : Option Int
  card_exp_year : Option Int
  is_default : Bool
  created_at : Nat
  updated_at : Nat
deriving DecidableEq, Repr

/-- The durable store: the four engine tables plus the ids present in the
subscriptions (plan) table, a fresh-id counter standing for the database's
id generator, and a clock standing for NOW(). -/
structure Store where
  payment_intents : List PaymentIntentRow
  payment_history : List PaymentHistoryRow
  user_subscriptions : List UserSubscriptionRow
  payment_methods : List PaymentMethodRow
  subscriptions : List Nat
  next_id : Nat
  now : Nat
deriving DecidableEq, Repr

/-- Error taxonomy of spec section 7, as the engine's error values. -/
inductive StripeErr where
  | UpstreamUnavailable
  | DuplicateEntry
  | PlanNotFound
  | ConflictingOutcome
  | UnknownAttempt
  | InvalidPaymentMethodType
deriving DecidableEq, Repr

namespace PaymentIntent

/-- PaymentIntent::create (payment.rs:47-74): INSERT a new row with
status 'pending'; currency comes from the table default. -/
def create (st : Store) (user_id subscription_id : Nat)
    (stripe_payment_intent_id : String) (amount : Int)
    (client_secret : String) : Store × PaymentIntentRow :=
  let row : PaymentIntentRow :=
    { id := st.next_id
      stripe_payment_intent_id := stripe_payment_intent_id
      user_id := user_id
      subscription_id := subscription_id
      amount := amount
      currency := "usd"
      status := "pending"
      client_secret := client_secret
      created_at := st.now
      updated_at := st.now }
  ({ st with payment_intents := st.payment_intents ++ [row]
             next_id := st.next_id + 1 }, row)

/-- PaymentIntent::update_status (payment.rs:76-93): UPDATE payment_intents
SET status = $1, updated_at = NOW() WHERE stripe_payment_intent_id = $2.
Unconditional: no check of the current status. -/
def update_status (st : Store) (stripe_payment_intent_id status : String) :
    Store :=
  { st with payment_intents := st.payment_intents.map fun r =>
      if r.stripe_payment_intent_id == stripe_payment_intent_id then
        { r with status := status, updated_at := st.now }
      else r }

/-- PaymentIntent::get_by_stripe_id (payment.rs:95-111): SELECT ... WHERE
stripe_payment_intent_id = $1, fetch_optional. -/
def get_by_stripe_id (st : Store) (stripe_payment_intent_id : String) :
    Option PaymentIntentRow :=
  st.payment_intents.find? fun r =>
    r.stripe_payment_intent_id == stripe_payment_intent_id

end PaymentIntent

namespace PaymentHistory

/-- PaymentHistory::create (payment.rs:165-192): INSERT a ledger row.
Modelled from the spec: the migrations defining the payment_history table
schema are not under src, so the table's uniqueness behaviour is taken from
spec section 4.4: the append fails with DuplicateEntry when an entry for the
exact (payment_intent_id, outcome) pair already exists. -/
def create (st : Store) (user_id subscription_id payment_intent_id : Nat)
    (amount : Int) (status : String) :
    Store × Except StripeErr PaymentHistoryRow :=
  if st.payment_history.any fun h =>
      h.payment_intent_id == payment_intent_id && h.status == status then
    (st, .error .DuplicateEntry)
  else
    let row : PaymentHistoryRow :=
      { id := st.next_id
        user_id := user_id
        subscription_id := subscription_id
        payment_intent_id := payment_intent_id
        amount := amount
        currency := "usd"
        status := status
        created_at := st.now }
    ({ st with payment_history := st.payment_history ++ [row]
               next_id := st.next_id + 1 }, .ok row)

/-- PaymentHistory::get_for_user (payment.rs:194-214): SELECT ... WHERE
user_id = $1 ORDER BY created_at DESC LIMIT $2. -/
def get_for_user (st : Store) (user_id : Nat) (limit : Nat) :
    List PaymentHistoryRow :=
  ((st.payment_history.filter fun h => h.user_id == user_id).mergeSort
    fun a b => b.created_at ≤ a.created_at).take limit

end PaymentHistory

namespace UserSubscription

/-- UserSubscription::create (subscription.rs:94-116): INSERT a row with
is_active = true and payment_status = 'pending', unconditionally. -/
def create (st : Store) (user_id subscription_id : Nat) :
    Store × UserSubscriptionRow :=
  let row : UserSubscriptionRow :=
    { id := st.next_id
      user_id := user_id
      subscription_id := subscription_id
      starts_at := st.now
      ends_at := none
      is_active := true
      payment_status := some "pending"
      created_at := st.now
      updated_at := st.now }
  ({ st with user_subscriptions := st.user_subscriptions ++ [row]
             next_id := st.next_id + 1 }, row)

/-- UserSubscription::cancel (subscription.rs:118-135): UPDATE ... SET
is_active = false, ends_at = NOW() WHERE user_id = $1 AND is_active. -/
def cancel (st : Store) (user_id : Nat) : Store :=
  { st with user_subscriptions := st.user_subscriptions.map fun r =>
      if r.user_id == user_id && r.is_active then
        { r with is_active := false, ends_at := some st.now,
                 updated_at := st.now }
      else r }

/-- Modelled from the spec: UserSubscription::activate is called at
src/backend/src/services/stripe.rs:113 but its definition is nowhere under
src. Spec section 4.3: close any prior active entitlement of the user
(end timestamp = now, active = false) and open a new active row for the plan
in the same operation; fail with PlanNotFound when the plan no longer
exists. -/
def activate (st : Store) (user_id subscription_id : Nat) :
    Store × Option StripeErr :=
  if st.subscriptions.contains subscription_id then
    let closed := st.user_subscriptions.map fun r =>
      if r.user_id == user_id && r.is_active then
        { r with is_active := false, ends_at := some st.now,
                 updated_at := st.now }
      else r
    let row : UserSubscriptionRow :=
      { id := st.next_id
        user_id := user_id
        subscription_id := subscription_id
        starts_at := st.now
        ends_at := none
        is_active := true
        payment_status := some "succeeded"
        created_at := st.now
        updated_at := st.now }
    ({ st with user_subscriptions := closed ++ [row]
               next_id := st.next_id + 1 }, none)
  else (st, some .PlanNotFound)

end UserSubscription

namespace PaymentMethod

/-- PaymentMethod::create (payment.rs:115-142): INSERT a payment-method row
with the optional card columns; is_default comes from the table default. -/
def create (st : Store) (user_id : Nat) (stripe_payment_method_id : String)
    (card_brand card_last4 : Option String)
    (card_exp_month card_exp_year : Option Int) :
    Store × PaymentMethodRow :=
  let row : PaymentMethodRow :=
    { id := st.next_id
      user_id := user_id
      stripe_payment_method_id := stripe_payment_method_id
      card_brand := card_brand
      card_last4 := card_last4
      card_exp_month := card_exp_month
      card_exp_year := card_exp_year
      is_default := false
      created_at := st.now
      updated_at := st.now }
  ({ st with payment_methods := st.payment_methods ++ [row]
             next_id := st.next_id + 1 }, row)

end PaymentMethod

/-- The decoded webhook event type (stripe.rs:70-82 matches on
EventType::PaymentIntentSucceeded, ::PaymentIntentPaymentFailed, and a
catch-all). -/
inductive EventType where
  | PaymentIntentSucceeded
  | PaymentIntentPaymentFailed
  | Other (kind : String)
deriving DecidableEq, Repr

/-- A successfully verified, decoded event: its type tag and, when the data
object is a payment intent, that intent's external identifier
(event.data.object.as_payment_intent()). -/
structure Event where
  type_ : EventType
  object_payment_intent : Option String
deriving DecidableEq, Repr

/-- What the upstream gateway returns from PaymentIntent::create on the
Stripe client (stripe.rs:51): the external attempt id and client secret. -/
structure GatewayIntent where
  id : String
  client_secret : Option String
deriving DecidableEq, Repr

/-- Card fields of a retrieved external payment method
(stripe::PaymentMethodCard, destructured at stripe.rs:181-187). -/
structure PaymentMethodCardFields where
  brand : String
  last4 : String
  exp_month : Int
  exp_year : Int
deriving DecidableEq, Repr

/-- A payment method retrieved from the gateway (stripe.rs:179): it may or
may not carry card details. -/
structure RetrievedPaymentMethod where
  card : Option PaymentMethodCardFields
deriving DecidableEq, Repr

/-- CardDetails (payment.rs:217-223). -/
structure CardDetails where
  brand : String
  last4 : String
  exp_month : Int
  exp_year : Int
deriving DecidableEq, Repr

namespace StripeService

/-- StripeService::handle_payment_success (stripe.rs:87-121): update the
intent status to 'succeeded', re-read the row by external id, append a
ledger entry and activate the subscription. Each step commits before the
next runs; an error after a committed step leaves that step applied, which
the Store component of the result records. -/
def handle_payment_success (st : Store) (payment_intent_id : String) :
    Store × Option StripeErr :=
  let st1 := PaymentIntent.update_status st payment_intent_id "succeeded"
  match PaymentIntent.get_by_stripe_id st1 payment_intent_id with
  | none => (st1, none)
  | some row =>
    match PaymentHistory.create st1 row.user_id row.subscription_id row.id
        row.amount "succeeded" with
    | (st2, .error e) => (st2, some e)
    | (st2, .ok _) =>
      UserSubscription.activate st2 row.user_id row.subscription_id

/-- StripeService::handle_payment_failure (stripe.rs:123-150): update the
intent status to 'failed', re-read the row, append a ledger entry. No
activation step. -/
def handle_payment_failure (st : Store) (payment_intent_id : String) :
    Store × Option StripeErr :=
  let st1 := PaymentIntent.update_status st payment_intent_id "failed"
  match PaymentIntent.get_by_stripe_id st1 payment_intent_id with
  | none => (st1, none)
  | some row =>
    match PaymentHistory.create st1 row.user_id row.subscription_id row.id
        row.amount "failed" with
    | (st2, .error e) => (st2, some e)
    | (st2, .ok _) => (st2, none)

/-- StripeService::handle_webhook (stripe.rs:67-85) after successful
signature verification: dispatch on the event type; anything other than the
two payment-intent outcomes falls to the catch-all arm and is ignored. -/
def handle_webhook (st : Store) (event : Event) : Store × Option StripeErr :=
  match event.type_ with
  | .PaymentIntentSucceeded =>
    match event.object_payment_intent with
    | some pid => handle_payment_success st pid
    | none => (st, none)
  | .PaymentIntentPaymentFailed =>
    match event.object_payment_intent with
    | some pid => handle_payment_failure st pid
    | none => (st, none)
  | .Other _ => (st, none)

/-- StripeService::create_payment_intent (stripe.rs:35-65): resolve the
customer and create the upstream attempt (both gateway calls, summarised by
the gateway argument), then INSERT the local pending row. A gateway failure
propagates before any local write. -/
def create_payment_intent (st : Store) (user_id subscription_id : Nat)
    (price_monthly : Int) (gateway : Except Unit GatewayIntent) :
    Store × Except StripeErr PaymentIntentRow :=
  match gateway with
  | .error _ => (st, .error .UpstreamUnavailable)
  | .ok gi =>
    let res := PaymentIntent.create st user_id subscription_id gi.id
      price_monthly (gi.client_secret.getD "")
    (res.1, .ok res.2)

/-- StripeService::attach_payment_method (stripe.rs:174-209): retrieve the
method from the gateway (the retrieved argument); when it has card details,
store a local row and return them, otherwise bail with an error before any
local write. -/
def attach_payment_method (st : Store) (user_id : Nat)
    (payment_method_id : String) (retrieved : RetrievedPaymentMethod) :
    Store × Except StripeErr CardDetails :=
  match retrieved.card with
  | some c =>
    let details : CardDetails :=
      { brand := c.brand, last4 := c.last4,
        exp_month := c.exp_month, exp_year := c.exp_year }
    let res := PaymentMethod.create st user_id payment_method_id
      (some c.brand) (some c.last4) (some c.exp_month) (some c.exp_year)
    (res.1, .ok details)
  | none => (st, .error .InvalidPaymentMethodType)

end StripeService

/-- get_payment_history route (routes/payment.rs:110-117): the query runs
with limit 10. -/
def get_payment_history (st : Store) (user_id : Nat) :
    List PaymentHistoryRow :=
  PaymentHistory.get_for_user st user_id 10

/-- Number of active entitlement rows a user holds. -/
def countActive (st : Store) (user_id : Nat) : Nat :=
  (st.user_subscriptions.filter fun r =>
    r.user_id == user_id && r.is_active).length

/-- Number of ledger entries referencing a payment attempt. -/
def countLedgerFor (st : Store) (payment_intent_id : Nat) : Nat :=
  (st.payment_history.filter fun h =>
    h.payment_intent_id == payment_intent_id).length


/-! ### Helper lemmas about the embedded operations -/

/-- find? for an external id commutes with the status-update map, because the
update never changes the id column. -/
theorem find_up (l : List PaymentIntentRow) (pid s : String) (n : Nat) :
    (l.map fun r =>
        if r.stripe_payment_intent_id == pid then
          { r with status := s, updated_at := n }
        else r).find?
      (fun r => r.stripe_payment_intent_id == pid)
    = (l.find? fun r => r.stripe_payment_intent_id == pid).map
        (fun r => { r with status := s, updated_at := n }) := by
  induction l with
  | nil => rfl
  | cons a l ih =>
    by_cases h : a.stripe_payment_intent_id = pid
    · simp [List.find?_cons, h]
    · simp [-List.find?_map] at ih
      simp [List.find?_cons, h, ih, -List.find?_map]

/-- Re-reading a row after update_status returns the updated row. -/
theorem get_update (st : Store) (pid s : String) :
    PaymentIntent.get_by_stripe_id (PaymentIntent.update_status st pid s) pid
      = (PaymentIntent.get_by_stripe_id st pid).map
          (fun r => { r with status := s, updated_at := st.now }) := by
  unfold PaymentIntent.get_by_stripe_id PaymentIntent.update_status
  exact find_up st.payment_intents pid s st.now

/-- The status-update map keeps every row whose external id differs. -/
theorem map_keep (l : List PaymentIntentRow) (pid s : String) (n : Nat)
    (h : ∀ r ∈ l, r.stripe_payment_intent_id ≠ pid) :
    (l.map fun r =>
      if r.stripe_payment_intent_id == pid then
        { r with status := s, updated_at := n }
      else r) = l := by
  induction l with
  | nil => rfl
  | cons a l ih =>
    rw [List.map_cons, if_neg (by simpa using h a (List.mem_cons_self a l)),
      ih fun r hr => h r (List.mem_cons_of_mem a hr)]

/-- update_status leaves a store without a matching row untouched. -/
theorem update_status_no_match (st : Store) (pid s : String)
    (h : ∀ r ∈ st.payment_intents, r.stripe_payment_intent_id ≠ pid) :
    PaymentIntent.update_status st pid s = st := by
  unfold PaymentIntent.update_status
  rw [map_keep st.payment_intents pid s st.now h]

/-- Looking up an absent external id yields none. -/
theorem get_no_match (st : Store) (pid : String)
    (h : ∀ r ∈ st.payment_intents, r.stripe_payment_intent_id ≠ pid) :
    PaymentIntent.get_by_stripe_id st pid = none := by
  unfold PaymentIntent.get_by_stripe_id
  exact List.find?_eq_none.mpr fun r hr => by simpa using h r hr

/-- Ledger append succeeds when no entry for the (attempt, outcome) pair
exists, and returns the store with exactly that entry appended. -/
theorem PH_create_ok (st : Store) (u s p : Nat) (a : Int) (outc : String)
    (h : ∀ hh ∈ st.payment_history,
      ¬ (hh.payment_intent_id = p ∧ hh.status = outc)) :
    PaymentHistory.create st u s p a outc
      = ({ st with
            payment_history := st.payment_history ++
              [{ id := st.next_id, user_id := u, subscription_id := s,
                 payment_intent_id := p, amount := a, currency := "usd",
                 status := outc, created_at := st.now }]
            next_id := st.next_id + 1 },
         .ok { id := st.next_id, user_id := u, subscription_id := s,
               payment_intent_id := p, amount := a, currency := "usd",
               status := outc, created_at := st.now }) := by
  unfold PaymentHistory.create
  rw [if_neg]
  intro hc
  rw [List.any_eq_true] at hc
  obtain ⟨x, hx, hpx⟩ := hc
  exact h x hx (by simpa using hpx)

/-- Ledger append fails with DuplicateEntry when an entry for the pair
already exists, leaving the store unchanged. -/
theorem PH_create_err (st : Store) (u s p : Nat) (a : Int) (outc : String)
    (h : ∃ hh ∈ st.payment_history,
      hh.payment_intent_id = p ∧ hh.status = outc) :
    PaymentHistory.create st u s p a outc = (st, .error .DuplicateEntry) := by
  unfold PaymentHistory.create
  rw [if_pos]
  rw [List.any_eq_true]
  obtain ⟨x, hx, h1, h2⟩ := h
  exact ⟨x, hx, by simp [h1, h2]⟩

/-- Closing the active rows of a user removes every row of that user from
the active filter. -/
theorem filter_closed (l : List UserSubscriptionRow) (u n : Nat) :
    ((l.map fun r =>
        if r.user_id == u && r.is_active then
          { r with is_active := false, ends_at := some n, updated_at := n }
        else r).filter fun r => r.user_id == u && r.is_active) = [] := by
  rw [List.filter_eq_nil_iff]
  intro x hx
  rw [List.mem_map] at hx
  obtain ⟨r, hr, rfl⟩ := hx
  by_cases h : (r.user_id == u && r.is_active) = true
  · rw [if_pos h]
    simp
  · rw [if_neg h]
    exact h

/-- The modelled activate: success when the plan exists, with exactly one
active row for the user afterwards, and no other table touched. -/
theorem activate_spec (st : Store) (u p : Nat) (hp : p ∈ st.subscriptions) :
    (UserSubscription.activate st u p).2 = none ∧
    countActive (UserSubscription.activate st u p).1 u = 1 ∧
    (UserSubscription.activate st u p).1.payment_history
      = st.payment_history ∧
    (UserSubscription.activate st u p).1.payment_intents
      = st.payment_intents := by
  have hc : st.subscriptions.contains p = true := by
    simpa using hp
  unfold UserSubscription.activate
  rw [if_pos hc]
  refine ⟨rfl, ?_, rfl, rfl⟩
  unfold countActive
  dsimp only
  rw [List.filter_append, filter_closed]
  simp

/-- cancel leaves no active row for the user. -/
theorem cancel_countActive (st : Store) (u : Nat) :
    countActive (UserSubscription.cancel st u) u = 0 := by
  unfold countActive UserSubscription.cancel
  dsimp only
  rw [filter_closed]
  rfl

/-- activate fails with PlanNotFound and leaves the store unchanged when
the plan is absent. -/
theorem activate_no_plan (st : Store) (u p : Nat)
    (hp : p ∉ st.subscriptions) :
    UserSubscription.activate st u p = (st, some .PlanNotFound) := by
  unfold UserSubscription.activate
  rw [if_neg]
  simpa using hp

/-- The store after the status transition and the ledger append of a
terminal outcome, before any activation step: the intent rows carry the new
status and one ledger entry for the attempt has been appended. -/
def outcomeMid (st : Store) (pid : String) (row : PaymentIntentRow)
    (outc : String) : Store :=
  { st with
    payment_intents := st.payment_intents.map fun r =>
      if r.stripe_payment_intent_id == pid then
        { r with status := outc, updated_at := st.now }
      else r
    payment_history := st.payment_history ++
      [{ id := st.next_id, user_id := row.user_id,
         subscription_id := row.subscription_id, payment_intent_id := row.id,
         amount := row.amount, currency := "usd", status := outc,
         created_at := st.now }]
    next_id := st.next_id + 1 }

/-- handle_payment_success on a known attempt with no duplicate ledger entry
reduces to the activation step applied after status update and append. -/
theorem hps_eq (st : Store) (pid : String) (row : PaymentIntentRow)
    (hget : PaymentIntent.get_by_stripe_id st pid = some row)
    (hnodup : ∀ hh ∈ st.payment_history,
      ¬ (hh.payment_intent_id = row.id ∧ hh.status = "succeeded")) :
    StripeService.handle_payment_success st pid
      = UserSubscription.activate (outcomeMid st pid row "succeeded")
          row.user_id row.subscription_id := by
  have h1 : PaymentIntent.get_by_stripe_id
      (PaymentIntent.update_status st pid "succeeded") pid
      = some { row with status := "succeeded", updated_at := st.now } := by
    rw [get_update, hget]
    rfl
  have h2 : PaymentHistory.create
      (PaymentIntent.update_status st pid "succeeded")
      row.user_id row.subscription_id row.id row.amount "succeeded"
      = (outcomeMid st pid row "succeeded",
         .ok { id := st.next_id, user_id := row.user_id,
               subscription_id := row.subscription_id,
               payment_intent_id := row.id, amount := row.amount,
               currency := "usd", status := "succeeded",
               created_at := st.now }) := by
    rw [PH_create_ok (PaymentIntent.update_status st pid "succeeded")
      row.user_id row.subscription_id row.id row.amount "succeeded" hnodup]
    rfl
  simp only [StripeService.handle_payment_success, h1, h2]

/-- handle_payment_failure on a known attempt with no duplicate ledger entry
updates the status, appends the entry and reports success. -/
theorem hpf_eq (st : Store) (pid : String) (row : PaymentIntentRow)
    (hget : PaymentIntent.get_by_stripe_id st pid = some row)
    (hnodup : ∀ hh ∈ st.payment_history,
      ¬ (hh.payment_intent_id = row.id ∧ hh.status = "failed")) :
    StripeService.handle_payment_failure st pid
      = (outcomeMid st pid row "failed", none) := by
  have h1 : PaymentIntent.get_by_stripe_id
      (PaymentIntent.update_status st pid "failed") pid
      = some { row with status := "failed", updated_at := st.now } := by
    rw [get_update, hget]
    rfl
  have h2 : PaymentHistory.create
      (PaymentIntent.update_status st pid "failed")
      row.user_id row.subscription_id row.id row.amount "failed"
      = (outcomeMid st pid row "failed",
         .ok { id := st.next_id, user_id := row.user_id,
               subscription_id := row.subscription_id,
               payment_intent_id := row.id, amount := row.amount,
               currency := "usd", status := "failed",
               created_at := st.now }) := by
    rw [PH_create_ok (PaymentIntent.update_status st pid "failed")
      row.user_id row.subscription_id row.id row.amount "failed" hnodup]
    rfl
  simp only [StripeService.handle_payment_failure, h1, h2]

/-- handle_payment_success on a known attempt whose ledger entry already
exists stops at the DuplicateEntry failure; the already-committed status
update persists but ledger and entitlements are untouched. -/
theorem hps_dup_eq (st : Store) (pid : String) (row : PaymentIntentRow)
    (hget : PaymentIntent.get_by_stripe_id st pid = some row)
    (hdup : ∃ hh ∈ st.payment_history,
      hh.payment_intent_id = row.id ∧ hh.status = "succeeded") :
    StripeService.handle_payment_success st pid
      = (PaymentIntent.update_status st pid "succeeded",
         some StripeErr.DuplicateEntry) := by
  have h1 : PaymentIntent.get_by_stripe_id
      (PaymentIntent.update_status st pid "succeeded") pid
      = some { row with status := "succeeded", updated_at := st.now } := by
    rw [get_update, hget]
    rfl
  have h2 : PaymentHistory.create
      (PaymentIntent.update_status st pid "succeeded")
      row.user_id row.subscription_id row.id row.amount "succeeded"
      = (PaymentIntent.update_status st pid "succeeded",
         .error .DuplicateEntry) := by
    rw [PH_create_err (PaymentIntent.update_status st pid "succeeded")
      row.user_id row.subscription_id row.id row.amount "succeeded" hdup]
  simp only [StripeService.handle_payment_success, h1, h2]

/-! ### Concrete stores used to exercise the claims -/

/-- An attempt row already in terminal status succeeded. -/
def rowTerminal : PaymentIntentRow :=
  { id := 1
    stripe_payment_intent_id := "pi_1"
    user_id := 5
    subscription_id := 7
    amount := 999
    currency := "usd"
    status := "succeeded"
    client_secret := "cs"
    created_at := 0
    updated_at := 0 }

/-- An attempt row still pending. -/
def rowPending : PaymentIntentRow :=
  { id := 1
    stripe_payment_intent_id := "pi_2"
    user_id := 5
    subscription_id := 7
    amount := 999
    currency := "usd"
    status := "pending"
    client_secret := "cs"
    created_at := 0
    updated_at := 0 }

/-- A pending attempt row whose plan will be absent. -/
def rowNoPlan : PaymentIntentRow :=
  { id := 1
    stripe_payment_intent_id := "pi_5"
    user_id := 5
    subscription_id := 7
    amount := 999
    currency := "usd"
    status := "pending"
    client_secret := "cs"
    created_at := 0
    updated_at := 0 }

/-- An entitlement row already active for user 5. -/
def rowActive : UserSubscriptionRow :=
  { id := 1
    user_id := 5
    subscription_id := 7
    starts_at := 0
    ends_at := none
    is_active := true
    payment_status := some "succeeded"
    created_at := 0
    updated_at := 0 }

/-- A store holding one attempt already in terminal status succeeded. -/
def exTerminal : Store :=
  { payment_intents := [rowTerminal]
    payment_history := []
    user_subscriptions := []
    payment_methods := []
    subscriptions := [7]
    next_id := 2
    now := 3 }

/-- A store holding one attempt still pending, its plan present. -/
def exPending : Store :=
  { payment_intents := [rowPending]
    payment_history := []
    user_subscriptions := []
    payment_methods := []
    subscriptions := [7]
    next_id := 2
    now := 3 }

/-- A store where user 5 already holds an active entitlement row. -/
def exActive : Store :=
  { payment_intents := []
    payment_history := []
    user_subscriptions := [rowActive]
    payment_methods := []
    subscriptions := [7, 8]
    next_id := 2
    now := 4 }

/-- A store holding one pending attempt whose plan row is gone. -/
def exNoPlan : Store :=
  { payment_intents := [rowNoPlan]
    payment_history := []
    user_subscriptions := []
    payment_methods := []
    subscriptions := []
    next_id := 2
    now := 3 }

/-- The empty store. -/
def exEmpty : Store :=
  { payment_intents := []
    payment_history := []
    user_subscriptions := []
    payment_methods := []
    subscriptions := []
    next_id := 0
    now := 0 }

/-! ### C1: terminal immutability and ConflictingOutcome -/

/-- C1, counterexample: on a stored succeeded attempt, the webhook failure
handler does not return ConflictingOutcome — it reports success and the
stored status has been overwritten to failed (update_status is an
unconditional UPDATE). -/
theorem c1_counterexample :
    (StripeService.handle_payment_failure exTerminal "pi_1").2 = none ∧
    (PaymentIntent.get_by_stripe_id
        (StripeService.handle_payment_failure exTerminal "pi_1").1
        "pi_1").map PaymentIntentRow.status = some "failed" ∧
    ¬ (StripeService.handle_payment_failure exTerminal "pi_1").2
        = some StripeErr.ConflictingOutcome := by
  refine ⟨rfl, rfl, ?_⟩
  intro h
  exact Option.noConfusion h

/-- C1, amended: applying the opposite outcome to an attempt stored as
succeeded does not fail and does not preserve the stored status: the status
is overwritten to failed and (absent a previous failed ledger entry) the
handler reports success; no ConflictingOutcome error exists in the code. -/
theorem c1_amended_overwrite (st : Store) (pid : String)
    (row : PaymentIntentRow)
    (hget : PaymentIntent.get_by_stripe_id st pid = some row)
    (_hterm : row.status = "succeeded")
    (hnodup : ∀ hh ∈ st.payment_history,
      ¬ (hh.payment_intent_id = row.id ∧ hh.status = "failed")) :
    (StripeService.handle_payment_failure st pid).2 = none ∧
    (PaymentIntent.get_by_stripe_id
        (StripeService.handle_payment_failure st pid).1 pid).map
      PaymentIntentRow.status = some "failed" := by
  rw [hpf_eq st pid row hget hnodup]
  refine ⟨rfl, ?_⟩
  have : PaymentIntent.get_by_stripe_id (outcomeMid st pid row "failed") pid
      = (PaymentIntent.get_by_stripe_id st pid).map
          (fun r => { r with status := "failed", updated_at := st.now }) := by
    unfold PaymentIntent.get_by_stripe_id outcomeMid
    exact find_up st.payment_intents pid "failed" st.now
  rw [this, hget]
  rfl

/-- C1, witness for the amended theorem at the concrete terminal store. -/
theorem c1_amended_witness :
    (StripeService.handle_payment_failure exTerminal "pi_1").2 = none ∧
    (PaymentIntent.get_by_stripe_id
        (StripeService.handle_payment_failure exTerminal "pi_1").1
        "pi_1").map PaymentIntentRow.status = some "failed" :=
  c1_amended_overwrite exTerminal "pi_1" rowTerminal
    (by decide) rfl (by decide)

/-! ### C6: outcome notifications for unknown attempts -/

/-- C6, counterexample: on a store with no matching attempt the success
handler returns success (no UnknownAttempt error) — update_status matches
zero rows, the lookup yields none and the handler falls through to Ok. -/
theorem c6_counterexample :
    StripeService.handle_payment_success exEmpty "pi_x" = (exEmpty, none) ∧
    ¬ (StripeService.handle_payment_success exEmpty "pi_x").2
        = some StripeErr.UnknownAttempt := by
  refine ⟨rfl, ?_⟩
  intro h
  exact Option.noConfusion h

/-- C6, amended: a notification whose external id matches no local attempt
is silently acknowledged: both webhook outcome handlers return success and
leave every store table unchanged; no UnknownAttempt error is raised. -/
theorem c6_amended_silent (st : Store) (pid : String)
    (h : ∀ r ∈ st.payment_intents, r.stripe_payment_intent_id ≠ pid) :
    StripeService.handle_payment_success st pid = (st, none) ∧
    StripeService.handle_payment_failure st pid = (st, none) := by
  have h1 : PaymentIntent.update_status st pid "succeeded" = st :=
    update_status_no_match st pid "succeeded" h
  have h2 : PaymentIntent.update_status st pid "failed" = st :=
    update_status_no_match st pid "failed" h
  have h3 : PaymentIntent.get_by_stripe_id st pid = none :=
    get_no_match st pid h
  constructor
  · unfold StripeService.handle_payment_success
    rw [h1]
    simp only [h3]
  · unfold StripeService.handle_payment_failure
    rw [h2]
    simp only [h3]

/-- C6, witness for the amended theorem at the empty store. -/
theorem c6_amended_witness :
    StripeService.handle_payment_success exEmpty "pi_x" = (exEmpty, none) ∧
    StripeService.handle_payment_failure exEmpty "pi_x" = (exEmpty, none) :=
  c6_amended_silent exEmpty "pi_x" (by decide)

/-! ### C3: at most one active entitlement row per user -/

/-- C3, counterexample: UserSubscription::create inserts an active row
unconditionally, so on a store where user 5 already holds an active row a
second subscribe call leaves two simultaneously active rows — create does
not preserve the invariant. -/
theorem c3_counterexample :
    countActive exActive 5 = 1 ∧
    countActive (UserSubscription.create exActive 5 8).1 5 = 2 := by
  constructor <;> rfl

/-- C3, amended: the activation coordinator and cancel do enforce the
invariant — after activate (plan present) the user has exactly one active
row whatever the prior state, and after cancel none — but
UserSubscription::create (the subscribe route) inserts an unconditionally
active row and can create a second active row for the user. -/
theorem c3_amended_exclusivity (st : Store) (u p : Nat)
    (hp : p ∈ st.subscriptions) :
    countActive (UserSubscription.activate st u p).1 u = 1 ∧
    countActive (UserSubscription.cancel st u) u = 0 :=
  ⟨(activate_spec st u p hp).2.1, cancel_countActive st u⟩

/-- C3, witness for the amended theorem at the store with a prior active
row. -/
theorem c3_amended_witness :
    countActive (UserSubscription.activate exActive 5 8).1 5 = 1 ∧
    countActive (UserSubscription.cancel exActive 5) 5 = 0 :=
  c3_amended_exclusivity exActive 5 8 (by decide)

/-! ### C2: idempotence of duplicate success delivery -/

/-- The store after one successful delivery for the pending attempt. -/
def exOnce : Store :=
  (StripeService.handle_payment_success exPending "pi_2").1

/-- The pending attempt row as it stands after the first delivery. -/
def rowOnce : PaymentIntentRow :=
  { id := 1
    stripe_payment_intent_id := "pi_2"
    user_id := 5
    subscription_id := 7
    amount := 999
    currency := "usd"
    status := "succeeded"
    client_secret := "cs"
    created_at := 0
    updated_at := 3 }

/-- C2, counterexample: the second delivery of the same success outcome is
not swallowed as success — the DuplicateEntry failure from the ledger
append propagates out of the handler (the source uses error propagation,
not a swallow). -/
theorem c2_counterexample :
    (StripeService.handle_payment_success exOnce "pi_2").2
      = some StripeErr.DuplicateEntry ∧
    ¬ (StripeService.handle_payment_success exOnce "pi_2").2 = none := by
  refine ⟨rfl, ?_⟩
  intro h
  exact Option.noConfusion h

/-- C2, amended: re-delivering a success outcome whose ledger entry already
exists leaves the observable store unchanged — the ledger keeps its single
entry and the entitlements are untouched — but the handler returns the
DuplicateEntry error instead of swallowing it as success. -/
theorem c2_amended_idempotent (st : Store) (pid : String)
    (row : PaymentIntentRow)
    (hget : PaymentIntent.get_by_stripe_id st pid = some row)
    (hdup : ∃ hh ∈ st.payment_history,
      hh.payment_intent_id = row.id ∧ hh.status = "succeeded") :
    (StripeService.handle_payment_success st pid).2
      = some StripeErr.DuplicateEntry ∧
    (StripeService.handle_payment_success st pid).1.payment_history
      = st.payment_history ∧
    (StripeService.handle_payment_success st pid).1.user_subscriptions
      = st.user_subscriptions := by
  rw [hps_dup_eq st pid row hget hdup]
  exact ⟨rfl, rfl, rfl⟩

/-- C2, witness for the amended theorem at the once-delivered store. -/
theorem c2_amended_witness :
    (StripeService.handle_payment_success exOnce "pi_2").2
      = some StripeErr.DuplicateEntry ∧
    (StripeService.handle_payment_success exOnce "pi_2").1.payment_history
      = exOnce.payment_history ∧
    (StripeService.handle_payment_success exOnce "pi_2").1.user_subscriptions
      = exOnce.user_subscriptions :=
  c2_amended_idempotent exOnce "pi_2" rowOnce (by decide) (by decide)

/-! ### C5: all-or-nothing application of the outcome steps -/

/-- C5, counterexample: with the attempt's plan row gone, the success
handler commits the status update and the ledger append and then fails at
the activation step — the result is a ledger entry for the attempt with no
active entitlement, so the three steps are not applied as one atomic unit. -/
theorem c5_counterexample :
    countLedgerFor (StripeService.handle_payment_success exNoPlan "pi_5").1
      1 = 1 ∧
    countActive (StripeService.handle_payment_success exNoPlan "pi_5").1
      5 = 0 ∧
    (StripeService.handle_payment_success exNoPlan "pi_5").2
      = some StripeErr.PlanNotFound := by
  exact ⟨rfl, rfl, rfl⟩

/-- C5, amended: the status transition, ledger append and activation run as
separate commits with no enclosing transaction; when the activation step
fails (plan gone) the earlier steps persist — the ledger gains the entry,
the entitlements stay unchanged, and the error surfaces. -/
theorem c5_amended_partial (st : Store) (pid : String)
    (row : PaymentIntentRow)
    (hget : PaymentIntent.get_by_stripe_id st pid = some row)
    (hnodup : ∀ hh ∈ st.payment_history,
      ¬ (hh.payment_intent_id = row.id ∧ hh.status = "succeeded"))
    (hplan : row.subscription_id ∉ st.subscriptions) :
    (StripeService.handle_payment_success st pid).2
      = some StripeErr.PlanNotFound ∧
    countLedgerFor (StripeService.handle_payment_success st pid).1 row.id
      = countLedgerFor st row.id + 1 ∧
    (StripeService.handle_payment_success st pid).1.user_subscriptions
      = st.user_subscriptions := by
  rw [hps_eq st pid row hget hnodup]
  have hplan2 : row.subscription_id
      ∉ (outcomeMid st pid row "succeeded").subscriptions := hplan
  rw [activate_no_plan _ _ _ hplan2]
  refine ⟨rfl, ?_, rfl⟩
  unfold countLedgerFor outcomeMid
  dsimp only
  rw [List.filter_append]
  simp

/-- C5, witness for the amended theorem at the plan-gone store. -/
theorem c5_amended_witness :
    (StripeService.handle_payment_success exNoPlan "pi_5").2
      = some StripeErr.PlanNotFound ∧
    countLedgerFor (StripeService.handle_payment_success exNoPlan "pi_5").1
      rowNoPlan.id = countLedgerFor exNoPlan rowNoPlan.id + 1 ∧
    (StripeService.handle_payment_success exNoPlan "pi_5").1.user_subscriptions
      = exNoPlan.user_subscriptions :=
  c5_amended_partial exNoPlan "pi_5" rowNoPlan (by decide) (by decide)
    (by decide)

/-! ### C4: initiate followed by a success outcome -/

/-- The local row that create_payment_intent persists for a fresh gateway
attempt id. -/
def initiatedRow (st : Store) (uid subId : Nat) (price : Int)
    (gid secret : String) : PaymentIntentRow :=
  { id := st.next_id
    stripe_payment_intent_id := gid
    user_id := uid
    subscription_id := subId
    amount := price
    currency := "usd"
    status := "pending"
    client_secret := secret
    created_at := st.now
    updated_at := st.now }

/-- The store right after create_payment_intent succeeded. -/
def initiatedStore (st : Store) (uid subId : Nat) (price : Int)
    (gid secret : String) : Store :=
  { st with
    payment_intents := st.payment_intents ++
      [initiatedRow st uid subId price gid secret]
    next_id := st.next_id + 1 }

/-- C4: initiate on a fresh gateway attempt id followed immediately by the
success outcome yields success, exactly one ledger entry for the new
attempt, and exactly one active entitlement for the user. The activation
step follows the spec-modelled activate (its body is absent from src). -/
theorem c4_initiate_then_success (st : Store) (uid subId : Nat)
    (price : Int) (gid secret : String)
    (hplan : subId ∈ st.subscriptions)
    (hfresh : ∀ r ∈ st.payment_intents, r.stripe_payment_intent_id ≠ gid)
    (hhist : ∀ hh ∈ st.payment_history,
      hh.payment_intent_id ≠ st.next_id) :
    (StripeService.handle_payment_success
        (StripeService.create_payment_intent st uid subId price
          (Except.ok { id := gid, client_secret := some secret })).1
        gid).2 = none ∧
    countLedgerFor (StripeService.handle_payment_success
        (StripeService.create_payment_intent st uid subId price
          (Except.ok { id := gid, client_secret := some secret })).1
        gid).1 st.next_id = 1 ∧
    countActive (StripeService.handle_payment_success
        (StripeService.create_payment_intent st uid subId price
          (Except.ok { id := gid, client_secret := some secret })).1
        gid).1 uid = 1 := by
  have hinit : (StripeService.create_payment_intent st uid subId price
      (Except.ok { id := gid, client_secret := some secret })).1
      = initiatedStore st uid subId price gid secret := rfl
  have hget1 : PaymentIntent.get_by_stripe_id
      (initiatedStore st uid subId price gid secret) gid
      = some (initiatedRow st uid subId price gid secret) := by
    unfold PaymentIntent.get_by_stripe_id initiatedStore
    dsimp only
    rw [List.find?_append,
      List.find?_eq_none.mpr fun r hr => by simpa using hfresh r hr]
    simp [initiatedRow]
  have hnodup1 : ∀ hh ∈ (initiatedStore st uid subId price gid
        secret).payment_history,
      ¬ (hh.payment_intent_id
          = (initiatedRow st uid subId price gid secret).id ∧
        hh.status = "succeeded") :=
    fun hh hmem hc => hhist hh hmem hc.1
  rw [hinit, hps_eq (initiatedStore st uid subId price gid secret) gid
    (initiatedRow st uid subId price gid secret) hget1 hnodup1]
  have hplan2 : (initiatedRow st uid subId price gid secret).subscription_id
      ∈ (outcomeMid (initiatedStore st uid subId price gid secret) gid
          (initiatedRow st uid subId price gid secret)
          "succeeded").subscriptions := hplan
  have hact := activate_spec
    (outcomeMid (initiatedStore st uid subId price gid secret) gid
      (initiatedRow st uid subId price gid secret) "succeeded")
    (initiatedRow st uid subId price gid secret).user_id
    (initiatedRow st uid subId price gid secret).subscription_id hplan2
  refine ⟨hact.1, ?_, hact.2.1⟩
  unfold countLedgerFor
  rw [hact.2.2.1]
  show (((initiatedStore st uid subId price gid secret).payment_history ++
      [({ id := (initiatedStore st uid subId price gid secret).next_id
          user_id := (initiatedRow st uid subId price gid secret).user_id
          subscription_id :=
            (initiatedRow st uid subId price gid secret).subscription_id
          payment_intent_id :=
            (initiatedRow st uid subId price gid secret).id
          amount := (initiatedRow st uid subId price gid secret).amount
          currency := "usd"
          status := "succeeded"
          created_at := (initiatedStore st uid subId price gid
            secret).now } : PaymentHistoryRow)]).filter
      fun h : PaymentHistoryRow =>
        h.payment_intent_id == st.next_id).length = 1
  rw [List.filter_append]
  rw [List.filter_eq_nil_iff.mpr fun hh hmem => by
    simpa using hhist hh hmem]
  simp [initiatedRow]

/-- A store holding only the plan row for plan 7. -/
def exPlan : Store :=
  { payment_intents := []
    payment_history := []
    user_subscriptions := []
    payment_methods := []
    subscriptions := [7]
    next_id := 0
    now := 0 }

/-- C4, witness at a store holding only the plan row. -/
theorem c4_witness :
    (StripeService.handle_payment_success
        (StripeService.create_payment_intent exPlan 5 7 999
          (Except.ok { id := "pi_9", client_secret := some "sec" })).1
        "pi_9").2 = none ∧
    countLedgerFor (StripeService.handle_payment_success
        (StripeService.create_payment_intent exPlan 5 7 999
          (Except.ok { id := "pi_9", client_secret := some "sec" })).1
        "pi_9").1 exPlan.next_id = 1 ∧
    countActive (StripeService.handle_payment_success
        (StripeService.create_payment_intent exPlan 5 7 999
          (Except.ok { id := "pi_9", client_secret := some "sec" })).1
        "pi_9").1 5 = 1 :=
  c4_initiate_then_success exPlan 5 7 999 "pi_9" "sec" (by decide)
    (by decide) (by decide)

/-! ### C7: gateway failure during initiate -/

/-- C7: when the gateway call fails, create_payment_intent surfaces
UpstreamUnavailable and the returned store is the input store unchanged —
no local attempt row is created. -/
theorem c7_upstream_failure (st : Store) (uid subId : Nat) (price : Int) :
    StripeService.create_payment_intent st uid subId price
        (Except.error ())
      = (st, Except.error StripeErr.UpstreamUnavailable) := rfl

/-! ### C8: unhandled webhook event types -/

/-- C8: a verified event whose type is neither payment-succeeded nor
payment-failed falls to the catch-all arm: the handler returns success and
the store — intents, ledger, entitlements, methods — is returned
unchanged. -/
theorem c8_unhandled_ignored (st : Store) (kind : String)
    (obj : Option String) :
    StripeService.handle_webhook st
        { type_ := EventType.Other kind, object_payment_intent := obj }
      = (st, none) := rfl

/-! ### C10: attach-payment-method without card details -/

/-- C10: when the retrieved external payment method carries no card
details, attach_payment_method bails with an error before any local write:
the returned store is the input store unchanged. -/
theorem c10_no_card_bails (st : Store) (uid : Nat) (pmid : String) :
    StripeService.attach_payment_method st uid pmid { card := none }
      = (st, Except.error StripeErr.InvalidPaymentMethodType) := rfl

/-! ### C9: payment-history pagination and ordering -/

/-- C9: the payment-history route queries with limit 10, so it returns at
most 10 ledger rows, sorted by creation timestamp descending, and every
returned row belongs to the requesting user. -/
theorem c9_history_limit_sorted (st : Store) (uid : Nat) :
    (get_payment_history st uid).length ≤ 10 ∧
    List.Sorted (fun a b => b.created_at ≤ a.created_at)
      (get_payment_history st uid) ∧
    ∀ r ∈ get_payment_history st uid, r.user_id = uid := by
  refine ⟨?_, ?_, ?_⟩
  · unfold get_payment_history PaymentHistory.get_for_user
    exact List.length_take_le _ _
  · unfold get_payment_history PaymentHistory.get_for_user
    show List.Pairwise
      (fun a b : PaymentHistoryRow => b.created_at ≤ a.created_at) _
    refine List.Pairwise.sublist (List.take_sublist _ _) ?_
    refine List.Pairwise.imp ?_ (List.sorted_mergeSort ?_ ?_
      (st.payment_history.filter fun h => h.user_id == uid))
    · intro a b h
      simpa using h
    · intro a b c hab hbc
      simp only [decide_eq_true_eq] at hab hbc ⊢
      omega
    · intro a b
      simp only [Bool.or_eq_true, decide_eq_true_eq]
      omega
  · intro r hr
    unfold get_payment_history PaymentHistory.get_for_user at hr
    have h1 := List.mem_of_mem_take hr
    rw [List.mem_mergeSort] at h1
    have h2 := List.mem_filter.mp h1
    simpa using h2.2
